import Mathlib

/-!
Verification of the interactive-manipulation core of the My-Blender scene
editor (`src/main.py`).

Modelling conventions, used throughout:

* Python floats are modelled as exact rationals (`ℚ`).  All the properties
  verified here are interval/clamp/bookkeeping facts that hold exactly for
  the real-number reading of the code.
* `math.sqrt` is modelled as an uninterpreted oracle `sq : ℚ → ℚ` passed to
  every function that calls it; theorems that need a concrete value of the
  square root state it as a hypothesis on the oracle (e.g. `sq 25 = 5`).
* VTK actors are opaque heap objects used only as identities (dictionary
  keys, list members); they are modelled by `ActorId := ℕ`.  VTK calls that
  only read external render state (`GetSize`, `Pick`, `DisplayToWorld`,
  `GetBounds`) are modelled as data supplied in the state/environment;
  VTK calls that write pure display state with no feedback into the
  modelled state (`Render`, `AddActor`, `RemoveActor`, print statements)
  are omitted.
* Python `dict` is modelled as an insertion-ordered association list with
  update-in-place semantics (`dictInsert`), matching CPython dictionaries.
-/

/-- Actors are opaque identities (`vtkActor` objects used as dict keys and
list members in the source). -/
abbrev ActorId := ℕ

/-- A 3-component vector of (exact-rational models of) Python floats. -/
abbrev Vec3 := ℚ × ℚ × ℚ

/-- Componentwise sum of two 3-vectors (`[a[i] + b[i] for i]` patterns). -/
def vadd (a b : Vec3) : Vec3 := (a.1 + b.1, a.2.1 + b.2.1, a.2.2 + b.2.2)

/-- Componentwise difference of two 3-vectors. -/
def vsub (a b : Vec3) : Vec3 := (a.1 - b.1, a.2.1 - b.2.1, a.2.2 - b.2.2)

/-- Scalar multiple of a 3-vector. -/
def vsmul (c : ℚ) (a : Vec3) : Vec3 := (c * a.1, c * a.2.1, c * a.2.2)

/-- Dot product of two 3-vectors. -/
def vdot (a b : Vec3) : ℚ := a.1 * b.1 + a.2.1 * b.2.1 + a.2.2 * b.2.2

/-! ## Measurement tool distance and label (`MeasurementTool`, src/main.py)

`create_distance_text` (lines 928-943) computes
`distance = math.sqrt((x2-x1)**2 + (y2-y1)**2 + (z2-z1)**2)`, the midpoint of
the two points, and delegates to `create_distance_text_at_position`
(lines 859-876), which renders the string `f"{distance:.2f}"` on a camera
facing follower at that position. -/

/-- The squared Euclidean distance
`(p2[0]-p1[0])**2 + (p2[1]-p1[1])**2 + (p2[2]-p1[2])**2`
(the argument of `math.sqrt` at src/main.py lines 930-934). -/
def distanceSq (point1 point2 : Vec3) : ℚ :=
  (point2.1 - point1.1) ^ 2 + (point2.2.1 - point1.2.1) ^ 2 +
    (point2.2.2 - point1.2.2) ^ 2

/-- The `math.sqrt(...)` of the squared distance, with `math.sqrt` as the
oracle `sq` (src/main.py lines 930-934). -/
def distance (sq : ℚ → ℚ) (point1 point2 : Vec3) : ℚ :=
  sq (distanceSq point1 point2)

/-- The `100·x` rounded half-to-even to the nearest integer: the rounding
CPython applies when formatting a value with `f"{x:.2f}"`.  Computed with
integer arithmetic on the reduced fraction `x = p/q`: with
`fl = ⌊100p/q⌋` and remainder `r = 100p - fl·q`, the fractional part
`r/q` is compared with `1/2` via `2r` vs `q`. -/
def roundHalfEven100 (x : ℚ) : ℤ :=
  let p : ℤ := 100 * x.num
  let q : ℤ := x.den
  let fl : ℤ := p.fdiv q
  let r : ℤ := p - fl * q
  if 2 * r < q then fl
  else if q < 2 * r then fl + 1
  else if fl % 2 = 0 then fl else fl + 1

/-- Two-decimal digit rendering of `n < 100`. -/
def twoDigits (n : ℕ) : String :=
  if n < 10 then "0" ++ toString n else toString n

/-- Model of the Python format expression `f"{x:.2f}"` (src/main.py line
862): round `100·x` half-to-even, then print `whole.fraction` with
exactly two fraction digits. -/
def pyFormat2f (x : ℚ) : String :=
  let n : ℤ := roundHalfEven100 x
  let m : ℕ := n.natAbs
  let sign : String := if n < 0 then "-" else ""
  sign ++ toString (m / 100) ++ "." ++ twoDigits (m % 100)

/-- The distance label produced by `create_distance_text_at_position`
(src/main.py lines 859-876): a follower showing `f"{distance:.2f}"` at the
given position.  Modelled as the (text, position) pair; the VTK mapper,
follower colour/scale/camera and `renderer.AddActor` calls build pure
display state and are omitted. -/
def create_distance_text_at_position (position : Vec3) (dist : ℚ) :
    String × Vec3 :=
  (pyFormat2f dist, position)

/-- The `create_distance_text(point1, point2)` (src/main.py lines 928-943):
computes the Euclidean distance and the midpoint, then calls
`create_distance_text_at_position`. -/
def create_distance_text (sq : ℚ → ℚ) (point1 point2 : Vec3) :
    String × Vec3 :=
  let dist := distance sq point1 point2
  let mid_point : Vec3 :=
    ((point1.1 + point2.1) / 2, (point1.2.1 + point2.2.1) / 2,
      (point1.2.2 + point2.2.2) / 2)
  create_distance_text_at_position mid_point dist

/-! ## `MeasurementTool.get_world_position_from_mouse`
(src/main.py lines 622-725)

The function reads the renderer size, runs a `vtkWorldPointPicker`, and —
on the branch guarded by `picker.GetPickPosition() != [0, 0, 0]` — returns
the picker position; otherwise it intersects the display ray with the
plane through the camera focal point whose normal is the view direction,
falling back to a point 10 units along the view direction.

The VTK quantities are supplied by a `PickEnv`: the renderer size, the
picker result, the camera position/focal point, and the two homogeneous
world points produced by `DisplayToWorld` at display depths 0 and 1. -/

/-- Kind tag for a Python sequence value: `vtkWorldPointPicker.GetPickPosition()`
returns a *tuple*, while the literal `[0, 0, 0]` is a *list*. -/
inductive PySeqKind
  | tuple
  | list
deriving DecidableEq

/-- Python `==` between two 3-element sequences: CPython's
`tuple.__eq__(list)` and `list.__eq__(tuple)` both return `NotImplemented`,
so a tuple and a list are never equal regardless of their elements;
sequences of the same kind compare elementwise. -/
def pySeqEq (k1 k2 : PySeqKind) (v1 v2 : Vec3) : Bool :=
  match k1, k2 with
  | .tuple, .tuple => v1 = v2
  | .list, .list => v1 = v2
  | _, _ => false

/-- Python `!=` between two 3-element sequences. -/
def pySeqNe (k1 k2 : PySeqKind) (v1 v2 : Vec3) : Bool :=
  !(pySeqEq k1 k2 v1 v2)

/-- A homogeneous 4-vector as returned by `renderer.GetWorldPoint()`. -/
abbrev Vec4 := ℚ × ℚ × ℚ × ℚ

/-- Dehomogenization `[w[0]/w[3], w[1]/w[3], w[2]/w[3]]`
(src/main.py lines 669 and 674).  VTK always produces a nonzero `w`
component here; rational division by zero is total in Lean. -/
def dehomogenize (w : Vec4) : Vec3 :=
  (w.1 / w.2.2.2, w.2.1 / w.2.2.2, w.2.2.1 / w.2.2.2)

/-- The external render/VTK state read by
`get_world_position_from_mouse`. -/
structure PickEnv where
  /-- The `renderer.GetSize()[0]`. -/
  width : ℕ
  /-- The `renderer.GetSize()[1]`. -/
  height : ℕ
  /-- The `picker.GetPickPosition()` after `picker.Pick(...)` — a Python tuple. -/
  pickPos : Vec3
  /-- The `camera.GetPosition()`. -/
  cameraPos : Vec3
  /-- The `camera.GetFocalPoint()`. -/
  cameraFocus : Vec3
  /-- The `renderer.GetWorldPoint()` after `SetDisplayPoint(x, y, 0)`. -/
  worldHomog0 : Vec4
  /-- The `renderer.GetWorldPoint()` after `SetDisplayPoint(x, y, 1)`. -/
  worldHomog1 : Vec4
deriving DecidableEq

/-- The `MeasurementTool.get_world_position_from_mouse(mouse_x, mouse_y)`
(src/main.py lines 622-725), with `math.sqrt` as the oracle `sq` and the
VTK reads supplied by `env`.  Returns `none` exactly where the Python
function returns `None`. -/
def get_world_position_from_mouse (sq : ℚ → ℚ) (env : PickEnv) :
    Option Vec3 :=
  if env.width = 0 ∨ env.height = 0 then none
  else
    -- `pick_pos = picker.GetPickPosition()` (a tuple);
    -- `if picker.GetPickPosition() != [0, 0, 0]: return pick_pos`
    if pySeqNe .tuple .list env.pickPos (0, 0, 0) then some env.pickPos
    else
      let camera_pos := env.cameraPos
      let camera_focus := env.cameraFocus
      let view_dir := vsub camera_focus camera_pos
      let len1 := sq (vdot view_dir view_dir)
      let view_dir := if 0 < len1 then vsmul (1 / len1) view_dir else view_dir
      let world_point1 := dehomogenize env.worldHomog0
      let world_point2 := dehomogenize env.worldHomog1
      let ray_dir := vsub world_point2 world_point1
      let len2 := sq (vdot ray_dir ray_dir)
      let ray_dir := if 0 < len2 then vsmul (1 / len2) ray_dir else ray_dir
      -- plane through the focal point, normal = view direction
      let O := world_point1
      let D := ray_dir
      let P0 := camera_focus
      let N := view_dir
      let dot_DN := vdot D N
      -- `if abs(dot_DN) > 1e-6:` then `t = ((P0 - O) · N) / dot_DN`
      if 1 / 1000000 < |dot_DN| then
        let t := vdot (vsub P0 O) N / dot_DN
        if 0 ≤ t then some (vadd O (vsmul t D))
        else some (vadd camera_pos (vsmul 10 view_dir))
      else some (vadd camera_pos (vsmul 10 view_dir))

/-! ## Transform gizmos (`MoveGizmo` / `RotateGizmo` / `ScaleGizmo`,
src/main.py lines 1592-2060)

All three gizmo classes keep `self.original_opacities = {}` — a Python dict
keyed by the target actor — plus `is_visible` and `selected_actor`.
`show(target_actor)` records the target's current opacity in the dict and
dims the target (`SetOpacity(0.3)` for Move/Scale, `0.2` for Rotate);
`hide()` restores every recorded opacity and clears the dict.  The actors'
opacity properties live in the renderer; they are modelled as a map
`ActorId → ℚ` threaded through show/hide. -/

/-- Insertion-ordered dictionary update, as in a CPython `dict`:
assigning to an existing key overwrites its value in place (keeping its
position), assigning to a new key appends it. -/
def dictInsert (d : List (ActorId × ℚ)) (k : ActorId) (v : ℚ) :
    List (ActorId × ℚ) :=
  if k ∈ d.map Prod.fst then
    d.map (fun p => if p.1 = k then (k, v) else p)
  else d ++ [(k, v)]

/-- The state shared by `MoveGizmo`, `RotateGizmo` and `ScaleGizmo`
(their `show`/`hide` bodies are structurally identical, differing only in
the dim value).  The axis-handle actors and renderer reference build pure
display geometry and are omitted. -/
structure Gizmo where
  is_visible : Bool
  selected_actor : Option ActorId
  /-- The `self.original_opacities`, a dict from actor to recorded opacity. -/
  original_opacities : List (ActorId × ℚ)
deriving DecidableEq

/-- The freshly-constructed gizmo state (`__init__`). -/
def Gizmo.init : Gizmo :=
  { is_visible := false, selected_actor := none, original_opacities := [] }

/-- The `show(self, target_actor)` of each gizmo class (src/main.py lines
1675-1702 for Move, 1814-1841 for Rotate, 1966-1992 for Scale): set
`selected_actor`; if the target is truthy, record its current opacity in
`original_opacities`, set its opacity to `dim`, position/attach the handle
actors (display-only, omitted) and set `is_visible`.  Returns the updated
gizmo together with the updated opacity map. -/
def Gizmo.show (dim : ℚ) (g : Gizmo) (opacity : ActorId → ℚ)
    (target_actor : Option ActorId) : Gizmo × (ActorId → ℚ) :=
  match target_actor with
  | some t =>
      let original_opacity := opacity t
      ({ g with
          selected_actor := some t,
          original_opacities := dictInsert g.original_opacities t original_opacity,
          is_visible := true },
        fun a => if a = t then dim else opacity a)
  | none => ({ g with selected_actor := none }, opacity)

/-- The `MoveGizmo.show` dims to opacity `0.3` (src/main.py line 1683). -/
def MoveGizmo.show (g : Gizmo) (opacity : ActorId → ℚ)
    (target : Option ActorId) : Gizmo × (ActorId → ℚ) :=
  Gizmo.show (3/10) g opacity target

/-- The `RotateGizmo.show` dims to opacity `0.2` (src/main.py line 1822). -/
def RotateGizmo.show (g : Gizmo) (opacity : ActorId → ℚ)
    (target : Option ActorId) : Gizmo × (ActorId → ℚ) :=
  Gizmo.show (2/10) g opacity target

/-- The `ScaleGizmo.show` dims to opacity `0.3` (src/main.py line 1974). -/
def ScaleGizmo.show (g : Gizmo) (opacity : ActorId → ℚ)
    (target : Option ActorId) : Gizmo × (ActorId → ℚ) :=
  Gizmo.show (3/10) g opacity target

/-- The restore loop of `hide`:
`for actor, original_opacity in self.original_opacities.items():
actor.GetProperty().SetOpacity(original_opacity)` — dict iteration is
insertion order. -/
def restoreOpacities (entries : List (ActorId × ℚ))
    (opacity : ActorId → ℚ) : ActorId → ℚ :=
  entries.foldl (fun op p => fun a => if a = p.1 then p.2 else op a) opacity

/-- The `hide(self)` of each gizmo class (src/main.py lines 1704-1724,
1843-1863, 1994-2013): restore every opacity recorded in
`original_opacities`, clear the dict, detach the handle actors
(display-only, omitted), and reset `is_visible`/`selected_actor`. -/
def Gizmo.hide (g : Gizmo) (opacity : ActorId → ℚ) :
    Gizmo × (ActorId → ℚ) :=
  let opacity := restoreOpacities g.original_opacities opacity
  ({ g with
      original_opacities := [],
      is_visible := false,
      selected_actor := none },
    opacity)

/-! ## `ObjectManager` (src/main.py lines 3640-4047)

The registry owns `self.actors` (the object list), `self.selected_actors`,
`self.outline_actors` (a dict from actor to its outline actor), the three
gizmos, `self.active_gizmo` (`None` or one of the strings `'move'`,
`'rotate'`, `'scale'`), and — via `LightManager.__init__`, which sets
`object_manager.light_manager = self` — a light manager whose
`light_objects` dict maps light icon actors to their `vtkLight` info.
Camera icon actors carry `_is_camera`/`_camera_object` attributes.

Per-actor render state (`GetPosition`/`SetPosition`,
`GetOrientation`/`SetOrientation`, `GetScale`/`SetScale`,
`GetOpacity`/`SetOpacity`, `GetBounds`) is modelled as maps from
`ActorId`. -/

/-- The state of an outline actor: its visibility plus the transform
fields the registry writes (`SetPosition`, `SetOrientation`,
`SetScale`). -/
structure Outline where
  visible : Bool
  position : Vec3
  orientation : Vec3
  scale : Vec3
deriving DecidableEq

/-- The value of `ObjectManager.active_gizmo`: the Python strings
`'move'`, `'rotate'`, `'scale'` (wrapped in `Option` for `None`). -/
inductive ToolTag
  | move
  | rotate
  | scale
deriving DecidableEq

/-- The mutable state of a `vtkLight` that `LightManager` writes:
`SetPosition` and `SetFocalPoint`. -/
structure VtkLight where
  position : Vec3
  focalPoint : Vec3
deriving DecidableEq

/-- One entry of `LightManager.light_objects`: the light `type` string
together with its `vtk_light` payload (`offsets` and a light list for
`area`, a single light otherwise). -/
inductive LightInfo
  | point (l : VtkLight)
  | sun (l : VtkLight)
  | spot (l : VtkLight)
  | area (offsets : List Vec3) (ls : List VtkLight)
  | mesh (l : VtkLight)
deriving DecidableEq

/-- Axis-aligned bounds as returned by `actor.GetBounds()`:
`(xmin, xmax, ymin, ymax, zmin, zmax)`. -/
abbrev Bounds := ℚ × ℚ × ℚ × ℚ × ℚ × ℚ

/-- The `ObjectManager` state together with the per-actor render state it
reads and writes. -/
structure OM where
  /-- The `self.actors`, the registry's object list. -/
  actors : List ActorId
  /-- The `actor.GetPosition()` per actor. -/
  position : ActorId → Vec3
  /-- The `actor.GetOrientation()` per actor (Euler angles, degrees). -/
  orientation : ActorId → Vec3
  /-- The `actor.GetScale()` per actor. -/
  scaleVec : ActorId → Vec3
  /-- The `actor.GetProperty().GetOpacity()` per actor. -/
  opacity : ActorId → ℚ
  /-- The `actor.GetBounds()` per actor (read-only here). -/
  bounds : ActorId → Bounds
  /-- The `self.selected_actors`. -/
  selected_actors : List ActorId
  /-- The `self.outline_actors`: dict from actor to its outline actor. -/
  outline_actors : ActorId → Option Outline
  /-- The `self.move_gizmo`. -/
  move_gizmo : Gizmo
  /-- The `self.rotate_gizmo`. -/
  rotate_gizmo : Gizmo
  /-- The `self.scale_gizmo`. -/
  scale_gizmo : Gizmo
  /-- The `self.active_gizmo`. -/
  active_gizmo : Option ToolTag
  /-- whether the actor has `_is_camera = True`. -/
  is_camera : ActorId → Bool
  /-- The `actor._camera_object.position` for camera icon actors. -/
  cam_position : ActorId → Vec3
  /-- The `actor._camera_object.focal_point` for camera icon actors. -/
  cam_focal : ActorId → Vec3
  /-- The `self.light_manager.light_objects`: dict from light icon actor to
  its light info. -/
  light_objects : ActorId → Option LightInfo

/-- Pointwise update of a per-actor map. -/
def updMap {β : Type} (f : ActorId → β) (k : ActorId) (v : β) :
    ActorId → β :=
  fun a => if a = k then v else f a

/-- The `ObjectManager.update_outline_position(actor)` (src/main.py lines
3917-3922): if the actor has an outline, copy the actor's position and
orientation onto it. -/
def OM.update_outline_position (st : OM) (actor : ActorId) : OM :=
  match st.outline_actors actor with
  | some o =>
      { st with
          outline_actors :=
            updMap st.outline_actors actor
              (some { o with
                        position := st.position actor,
                        orientation := st.orientation actor }) }
  | none => st

/-- Set an outline's visibility (`VisibilityOn`/`VisibilityOff`), guarded
by `if actor in self.outline_actors:` as in the source. -/
def OM.setOutlineVisible (st : OM) (actor : ActorId) (b : Bool) : OM :=
  match st.outline_actors actor with
  | some o =>
      { st with outline_actors := updMap st.outline_actors actor (some { o with visible := b }) }
  | none => st

/-- The `ObjectManager.deselect_object(actor)` (src/main.py lines 3712-3717):
remove the actor from `selected_actors` if present (`list.remove` drops
the first occurrence), and hide its outline if it has one. -/
def OM.deselect_object (st : OM) (actor : ActorId) : OM :=
  let st :=
    if actor ∈ st.selected_actors then
      { st with selected_actors := st.selected_actors.erase actor }
    else st
  st.setOutlineVisible actor false

/-- Run `move_gizmo.hide()` against the registry's opacity map. -/
def OM.moveGizmoHide (st : OM) : OM :=
  let r := st.move_gizmo.hide st.opacity
  { st with move_gizmo := r.1, opacity := r.2 }

/-- Run `rotate_gizmo.hide()` against the registry's opacity map. -/
def OM.rotateGizmoHide (st : OM) : OM :=
  let r := st.rotate_gizmo.hide st.opacity
  { st with rotate_gizmo := r.1, opacity := r.2 }

/-- Run `scale_gizmo.hide()` against the registry's opacity map. -/
def OM.scaleGizmoHide (st : OM) : OM :=
  let r := st.scale_gizmo.hide st.opacity
  { st with scale_gizmo := r.1, opacity := r.2 }

/-- The `ObjectManager.deselect_all()` (src/main.py lines 3719-3730): hide all
three gizmos, turn off the outline of every selected actor, then clear
`selected_actors`. -/
def OM.deselect_all (st : OM) : OM :=
  let st := st.moveGizmoHide
  let st := st.rotateGizmoHide
  let st := st.scaleGizmoHide
  let st := st.selected_actors.foldl (fun s a => s.setOutlineVisible a false) st
  { st with selected_actors := [] }

/-- The gizmo-update epilogue of `select_object` (src/main.py lines
3754-3762): if there is a selection and an active tool, show the matching
gizmo on the primary (first) selected actor. -/
def OM.show_active_gizmo (st : OM) : OM :=
  match st.selected_actors, st.active_gizmo with
  | a :: _, some .move =>
      let r := MoveGizmo.show st.move_gizmo st.opacity (some a)
      { st with move_gizmo := r.1, opacity := r.2 }
  | a :: _, some .rotate =>
      let r := RotateGizmo.show st.rotate_gizmo st.opacity (some a)
      { st with rotate_gizmo := r.1, opacity := r.2 }
  | a :: _, some .scale =>
      let r := ScaleGizmo.show st.scale_gizmo st.opacity (some a)
      { st with scale_gizmo := r.1, opacity := r.2 }
  | _, _ => st

/-- The `ObjectManager.select_object(actor, multi_select=False)` (src/main.py
lines 3732-3766).  With `multi_select` and the actor already selected:
toggle it off via `deselect_object`.  With `multi_select` otherwise:
append it and show its outline.  Without `multi_select`: `deselect_all()`
first, then make the actor the sole selection and show its outline.
Finally run the gizmo-update epilogue. -/
def OM.select_object (st : OM) (actor : ActorId) (multi_select : Bool) :
    OM :=
  let st :=
    if multi_select ∧ actor ∈ st.selected_actors then
      st.deselect_object actor
    else if multi_select then
      if actor ∉ st.selected_actors then
        let st := { st with selected_actors := st.selected_actors ++ [actor] }
        (st.setOutlineVisible actor true).update_outline_position actor
      else st
    else
      let st := st.deselect_all
      let st := { st with selected_actors := [actor] }
      (st.setOutlineVisible actor true).update_outline_position actor
  st.show_active_gizmo

/-- The `CameraObject.get_view_direction()` (src/main.py lines 126-136):
normalize `focal_point - position`, or return `[0, 0, -1]` when the
length is zero.  `math.sqrt` is the oracle `sq`. -/
def get_view_direction (sq : ℚ → ℚ) (pos focal : Vec3) : Vec3 :=
  let direction := vsub focal pos
  let length := sq (vdot direction direction)
  if 0 < length then vsmul (1 / length) direction else (0, 0, -1)

/-- The `LightManager.sync_light_for_actor(actor)` (src/main.py lines
4171-4192) with the `_update_*_light` helpers (lines 4247-4252, 4285-4301,
4334-4341, 4386-4393, 4442-4450): if the actor is a light icon, rewrite
its `vtkLight` position/focal point from the actor's position (or bounds
centre for mesh lights). -/
def OM.sync_light_for_actor (st : OM) (actor : ActorId) : OM :=
  match st.light_objects actor with
  | none => st
  | some info =>
      let pos := st.position actor
      let info' : LightInfo :=
        match info with
        | .point _ => .point { position := pos, focalPoint := (0, 0, 0) }
        | .sun _ =>
            -- direction = [-pos[0], -pos[1], -pos[2]], or [0, -1, -0.5]
            -- when that is the zero vector
            let direction : Vec3 :=
              if (-pos.1, -pos.2.1, -pos.2.2) = ((0 : ℚ), (0 : ℚ), (0 : ℚ)) then
                (0, -1, -1/2)
              else (-pos.1, -pos.2.1, -pos.2.2)
            .sun { position := pos, focalPoint := vadd pos direction }
        | .spot _ => .spot { position := pos, focalPoint := (0, 0, 0) }
        | .area offsets ls =>
            .area offsets
              ((offsets.zip ls).map
                (fun p => { position := vadd pos p.1, focalPoint := (0, 0, 0) }))
        | .mesh l =>
            let b := st.bounds actor
            let center : Vec3 :=
              ((b.1 + b.2.1) / 2, (b.2.2.1 + b.2.2.2.1) / 2,
                (b.2.2.2.2.1 + b.2.2.2.2.2) / 2)
            .mesh { l with position := center }
      { st with light_objects := updMap st.light_objects actor (some info') }

/-- The `ObjectManager.move_object(actor, delta_x, delta_y, delta_z)`
(src/main.py lines 4020-4047): add the delta to the actor's position,
update its outline, then — for camera icon actors — move the camera
payload and recompute its focal point 10 units along the stored view
direction, and finally sync any light payload (`hasattr(self,
"light_manager")` holds once `LightManager` is constructed, which assigns
itself to the registry).  Note: registry membership (`self.actors`) is
never consulted. -/
def OM.move_object (sq : ℚ → ℚ) (st : OM) (actor : ActorId)
    (delta_x delta_y delta_z : ℚ) : OM :=
  let current_pos := st.position actor
  let new_pos : Vec3 :=
    (current_pos.1 + delta_x, current_pos.2.1 + delta_y,
      current_pos.2.2 + delta_z)
  let st := { st with position := updMap st.position actor new_pos }
  let st := st.update_outline_position actor
  let st :=
    if st.is_camera actor then
      -- camera_obj.set_position(new_pos) also re-sets the actor position
      let st :=
        { st with
            cam_position := updMap st.cam_position actor new_pos,
            position := updMap st.position actor new_pos }
      let direction := get_view_direction sq (st.cam_position actor) (st.cam_focal actor)
      let new_focal := vadd new_pos (vsmul 10 direction)
      { st with cam_focal := updMap st.cam_focal actor new_focal }
    else st
  st.sync_light_for_actor actor

/-! ## `VTKWidget` drag handlers and camera orbit
(src/main.py lines 5100-5300)

The widget owns the per-drag state (`is_scaling`, `scale_axis`,
`scale_start_point`, `original_scale`, `is_rotating_object`,
`rotate_axis`, `rotate_start_point`), the orbit-camera spherical state
(`camera_radius`, `camera_theta`, `camera_phi`, `rotation_pivot`), and the
registry.  The property panel's `updates_paused` flag
(`TransformWidget.pause_updates`/`resume_updates`, lines 1131-1137) is
included because `handle_scale_start` sets it. -/

/-- A scale-gizmo handle name as returned by
`ScaleGizmo.get_axis_at_position`: `'x'`, `'y'`, `'z'` or `'uniform'`. -/
inductive ScaleAxis
  | x
  | y
  | z
  | uniform
deriving DecidableEq

/-- A rotate-gizmo ring name as returned by
`RotateGizmo.get_axis_at_position`: `'x'`, `'y'` or `'z'`. -/
inductive RotAxis
  | x
  | y
  | z
deriving DecidableEq

/-- A Qt `QPoint`: `(x, y)` in pixels. -/
abbrev QPoint := ℚ × ℚ

/-- The exact value of the IEEE-754 double `math.pi`
(3.14159265358979311599…, slightly below the real π). -/
def mathPi : ℚ := 884279719003555 / 281474976710656

/-- Python `%` on (models of) floats: `x % y = x - y * floor(x / y)`. -/
def pyMod (x y : ℚ) : ℚ := x - y * ⌊x / y⌋

/-- The `VTKWidget` state relevant to the drag handlers and camera. -/
structure Widget where
  /-- The `self.object_manager`. -/
  om : OM
  /-- The `self.renderer.GetSize()[0]`. -/
  width : ℕ
  /-- The `self.renderer.GetSize()[1]`. -/
  height : ℕ
  /-- The `self.is_scaling`. -/
  is_scaling : Bool
  /-- The `self.scale_axis`. -/
  scale_axis : Option ScaleAxis
  /-- The `self.scale_start_point`. -/
  scale_start_point : QPoint
  /-- The `self.original_scale` (the selected actor's scale at drag start). -/
  original_scale : Vec3
  /-- The `self.is_rotating_object`. -/
  is_rotating_object : Bool
  /-- The `self.rotate_axis`. -/
  rotate_axis : Option RotAxis
  /-- The `self.rotate_start_point`. -/
  rotate_start_point : QPoint
  /-- The `main_window.right_panel.transform_widget.updates_paused`. -/
  updates_paused : Bool
  /-- The `self.camera_radius`. -/
  camera_radius : ℚ
  /-- The `self.camera_theta` (polar angle). -/
  camera_theta : ℚ
  /-- The `self.camera_phi` (azimuth). -/
  camera_phi : ℚ
  /-- The `self.rotation_pivot`. -/
  rotation_pivot : Vec3

/-- The camera-rotation branch of `VTKWidget.mouseMoveEvent` (src/main.py
lines 5145-5153): with `sensitivity = 0.008`, subtract the scaled mouse
delta from azimuth and polar angle, clamp the polar angle to
`[0.01, math.pi - 0.01]`, and wrap the azimuth modulo `2 * math.pi`.
`update_camera_position` (lines 4745-4772) then rewrites the VTK camera
from these angles without changing them. -/
def Widget.orbit_camera_step (st : Widget) (delta : QPoint) : Widget :=
  let sensitivity : ℚ := 8/1000
  let phi := st.camera_phi - delta.1 * sensitivity
  let theta := st.camera_theta - delta.2 * sensitivity
  let theta := max (1/100) (min (mathPi - 1/100) theta)
  { st with camera_theta := theta, camera_phi := pyMod phi (2 * mathPi) }

/-- The `ObjectManager.get_object_at_position(x, y)` (src/main.py lines
3795-3803) with the `vtkPropPicker` result supplied as `picked`: return
the picked actor only if it is truthy and in the registry list. -/
def OM.get_object_at_position (st : OM) (picked : Option ActorId) :
    Option ActorId :=
  match picked with
  | some a => if a ∈ st.actors then some a else none
  | none => none

/-- The `VTKWidget.handle_object_selection(mouse_pos, multi_select)`
(src/main.py lines 5425-5449) with the pick result supplied as `picked`:
bail out on an empty registry or a zero-size renderer; select the picked
object, or deselect all on an empty-space single click.
`update_camera_position` rewrites display state only. -/
def Widget.handle_object_selection (st : Widget) (picked : Option ActorId)
    (multi_select : Bool) : Widget :=
  if st.om.actors = [] then st
  else if st.width = 0 ∨ st.height = 0 then st
  else
    match st.om.get_object_at_position picked with
    | some picked_actor =>
        { st with om := st.om.select_object picked_actor multi_select }
    | none =>
        if multi_select = false then { st with om := st.om.deselect_all }
        else st

/-- The `VTKWidget.handle_scale_start(mouse_pos)` (src/main.py lines
5223-5253), with the scale gizmo's pick result supplied as `axisHit` (per
`get_axis_at_position`, lines 2031-2047, the result is `None` unless the
gizmo is visible) and the object pick of the fallback selection path
supplied as `picked`: on a handle hit with a nonempty selection, arm the
drag — record `scale_axis`, the start pointer position, the selected
actor's current scale — and pause the property panel; otherwise fall back
to object selection. -/
def Widget.handle_scale_start (st : Widget) (axisHit : Option ScaleAxis)
    (picked : Option ActorId) (mouse_pos : QPoint) : Widget :=
  if st.width = 0 ∨ st.height = 0 then st
  else
    let axis := if st.om.scale_gizmo.is_visible then axisHit else none
    match axis, st.om.selected_actors with
    | some ax, selected_actor :: _ =>
        { st with
            is_scaling := true,
            scale_axis := some ax,
            scale_start_point := mouse_pos,
            original_scale := st.om.scaleVec selected_actor,
            updates_paused := true }
    | _, _ => st.handle_object_selection picked false

/-- The `new_scale` computation inside `handle_scale_drag` (src/main.py
lines 5276-5291): start from the drag-start scale, multiply the dragged
component(s) by `scale_factor` (`uniform` scales all three), then floor
every component at `0.1`. -/
def scale_drag_new_scale (original_scale : Vec3) (axis : Option ScaleAxis)
    (scale_factor : ℚ) : Vec3 :=
  let new_scale : Vec3 :=
    match axis with
    | some .x =>
        (original_scale.1 * scale_factor, original_scale.2.1,
          original_scale.2.2)
    | some .y =>
        (original_scale.1, original_scale.2.1 * scale_factor,
          original_scale.2.2)
    | some .z =>
        (original_scale.1, original_scale.2.1,
          original_scale.2.2 * scale_factor)
    | some .uniform =>
        (original_scale.1 * scale_factor, original_scale.2.1 * scale_factor,
          original_scale.2.2 * scale_factor)
    | none => original_scale
  -- `new_scale = [max(0.1, s) for s in new_scale]`
  (max (1/10) new_scale.1, max (1/10) new_scale.2.1,
    max (1/10) new_scale.2.2)

/-- The `VTKWidget.handle_scale_drag(mouse_pos)` (src/main.py lines
5265-5299): from the pointer delta relative to the drag-start point,
compute `scale_factor = 1.0 + delta.x() * 0.01`, multiply the dragged
component(s) of the drag-start scale `original_scale` by it, floor every
component at `0.1`, and write the result to the selected actor and to its
outline if it has one. -/
def Widget.handle_scale_drag (st : Widget) (mouse_pos : QPoint) : Widget :=
  if st.is_scaling = false ∨ st.om.selected_actors = [] then st
  else
    match st.om.selected_actors with
    | [] => st
    | selected_actor :: _ =>
        let delta : QPoint :=
          (mouse_pos.1 - st.scale_start_point.1,
            mouse_pos.2 - st.scale_start_point.2)
        let sensitivity : ℚ := 1/100
        let scale_factor : ℚ := 1 + delta.1 * sensitivity
        let new_scale : Vec3 :=
          scale_drag_new_scale st.original_scale st.scale_axis scale_factor
        let om := { st.om with scaleVec := updMap st.om.scaleVec selected_actor new_scale }
        let om :=
          match om.outline_actors selected_actor with
          | some o =>
              { om with
                  outline_actors :=
                    updMap om.outline_actors selected_actor
                      (some { o with scale := new_scale }) }
          | none => om
        { st with om := om }

/-- The `VTKWidget.handle_rotate_drag(mouse_pos)` (src/main.py lines
5181-5221): from the pointer delta relative to `rotate_start_point`, with
`sensitivity = 0.5` degrees per pixel, add the delta to the Euler
component of the dragged ring (vertical delta drives X, horizontal drives
Y and Z), write the new orientation to the selected actor, mirror
orientation and position onto its outline if it has one, and advance
`rotate_start_point` to the current pointer position. -/
def Widget.handle_rotate_drag (st : Widget) (mouse_pos : QPoint) : Widget :=
  if st.is_rotating_object = false ∨ st.om.selected_actors = [] then st
  else
    match st.om.selected_actors with
    | [] => st
    | selected_actor :: _ =>
        let delta : QPoint :=
          (mouse_pos.1 - st.rotate_start_point.1,
            mouse_pos.2 - st.rotate_start_point.2)
        let sensitivity : ℚ := 1/2
        let rotation_delta : Vec3 :=
          match st.rotate_axis with
          | some .x => (delta.2 * sensitivity, 0, 0)
          | some .y => (0, delta.1 * sensitivity, 0)
          | some .z => (0, 0, delta.1 * sensitivity)
          | none => (0, 0, 0)
        let current_orientation := st.om.orientation selected_actor
        let new_orientation := vadd current_orientation rotation_delta
        let om :=
          { st.om with
              orientation := updMap st.om.orientation selected_actor new_orientation }
        let om :=
          match om.outline_actors selected_actor with
          | some o =>
              { om with
                  outline_actors :=
                    updMap om.outline_actors selected_actor
                      (some { o with
                                orientation := new_orientation,
                                position := om.position selected_actor }) }
          | none => om
        { st with om := om, rotate_start_point := mouse_pos }

/-! ## Concrete states used by witnesses and counterexamples -/

/-- A concrete square-root oracle used by witnesses and
counterexamples: correct at the inputs those evaluations reach. -/
def sqOracle : ℚ → ℚ := fun q => if q = 25 then 5 else if q = 100 then 10 else 0

/-- A pick at a screen location with no object underneath: camera at
`(0,0,10)` looking at the origin (focal distance 10), display ray straight
down the view axis, and the `vtkWorldPointPicker` reporting the
z-buffer background point `(0,0,-90)`. -/
def pickEnvMiss : PickEnv :=
  { width := 800, height := 600, pickPos := (0, 0, -90),
    cameraPos := (0, 0, 10), cameraFocus := (0, 0, 0),
    worldHomog0 := (0, 0, 9, 1), worldHomog1 := (0, 0, -1, 1) }

/-- A visible outline at the origin. -/
def outlineO0 : Outline :=
  { visible := true, position := (0, 0, 0), orientation := (0, 0, 0),
    scale := (1, 1, 1) }

/-- A registry with two plain objects `1` and `2` (both with outlines),
object `1` selected, and no active tool. -/
def omW0 : OM :=
  { actors := [1, 2],
    position := fun _ => (0, 0, 0),
    orientation := fun _ => (0, 0, 0),
    scaleVec := fun _ => (1, 1, 1),
    opacity := fun _ => 1,
    bounds := fun _ => (0, 0, 0, 0, 0, 0),
    selected_actors := [1],
    outline_actors := fun a =>
      if a = 1 then some outlineO0 else if a = 2 then some outlineO0 else none,
    move_gizmo := Gizmo.init,
    rotate_gizmo := Gizmo.init,
    scale_gizmo := Gizmo.init,
    active_gizmo := none,
    is_camera := fun _ => false,
    cam_position := fun _ => (0, 0, 0),
    cam_focal := fun _ => (0, 0, 0),
    light_objects := fun _ => none }

/-- A widget in the middle of both a uniform scale drag and an X rotate
drag on object `1`. -/
def widgetW0 : Widget :=
  { om := omW0,
    width := 800, height := 600,
    is_scaling := true,
    scale_axis := some ScaleAxis.uniform,
    scale_start_point := (0, 0),
    original_scale := (1, 2, 3),
    is_rotating_object := true,
    rotate_axis := some RotAxis.x,
    rotate_start_point := (0, 0),
    updates_paused := true,
    camera_radius := 20,
    camera_theta := 1,
    camera_phi := 0,
    rotation_pivot := (0, 0, 0) }

/-- A gizmo with a leftover recorded opacity for actor `7`. -/
def gizmoG0 : Gizmo :=
  { is_visible := false, selected_actor := none,
    original_opacities := [(7, 2)] }

/-- An opacity map giving actor `3` opacity `4` and everyone else `1`. -/
def opacityW0 : ActorId → ℚ := fun a => if a = 3 then 4 else 1

/-! ## Theorems -/

/-- C10: the measurement tool's reported distance is the Euclidean norm:
it is symmetric, vanishes on equal points, and the label text is the
distance formatted to two decimal places — `"5.00"` for `(0,0,0)` and
`(3,4,0)`.  `math.sqrt` is the oracle `sq`, constrained only at the
values these facts consume (`sqrt 0 = 0`, `sqrt 25 = 5`). -/
theorem measurement_distance_euclidean (sq : ℚ → ℚ) (p1 p2 p : Vec3)
    (hsq0 : sq 0 = 0) (hsq25 : sq 25 = 5) :
    distance sq p1 p2 = distance sq p2 p1 ∧ distance sq p p = 0 ∧
    (create_distance_text sq (0, 0, 0) (3, 4, 0)).1 = "5.00" := by
  refine ⟨?_, ?_, ?_⟩
  · have h : distanceSq p1 p2 = distanceSq p2 p1 := by
      unfold distanceSq; ring
    simp [distance, h]
  · have h : distanceSq p p = 0 := by unfold distanceSq; ring
    simp [distance, h, hsq0]
  · have h25 : distanceSq (0, 0, 0) (3, 4, 0) = 25 := by
      norm_num [distanceSq]
    show pyFormat2f (sq (distanceSq (0, 0, 0) (3, 4, 0))) = "5.00"
    rw [h25, hsq25]
    decide

theorem measurement_distance_euclidean_witness :
    sqOracle 0 = 0 ∧ sqOracle 25 = 5 ∧
    (distance sqOracle (1, 2, 3) (4, 5, 6) =
        distance sqOracle (4, 5, 6) (1, 2, 3) ∧
      distance sqOracle (7, 8, 9) (7, 8, 9) = 0 ∧
      (create_distance_text sqOracle (0, 0, 0) (3, 4, 0)).1 = "5.00") :=
  ⟨by decide, by decide,
    measurement_distance_euclidean sqOracle (1, 2, 3) (4, 5, 6) (7, 8, 9)
      (by decide) (by decide)⟩

/-- C2: whenever the renderer size is nonzero,
`get_world_position_from_mouse` returns the `vtkWorldPointPicker` result
for every input: the guard `picker.GetPickPosition() != [0, 0, 0]`
compares a tuple to a list and is always true, so the plane-intersection
fallback and its "no point" outcome are unreachable and the function never
returns `None` (except on a zero renderer size). -/
theorem pick_always_returns_picker_position (sq : ℚ → ℚ) (env : PickEnv)
    (hw : env.width ≠ 0) (hh : env.height ≠ 0) :
    get_world_position_from_mouse sq env = some env.pickPos := by
  unfold get_world_position_from_mouse
  rw [if_neg (by simp [hw, hh])]
  simp [pySeqNe, pySeqEq]

theorem pick_always_returns_picker_position_witness :
    (1 : ℕ) ≠ 0 ∧
    get_world_position_from_mouse sqOracle
      { width := 1, height := 1, pickPos := (5, 5, 5),
        cameraPos := (0, 0, 10), cameraFocus := (0, 0, 0),
        worldHomog0 := (0, 0, 9, 1), worldHomog1 := (0, 0, -1, 1) } =
      some (5, 5, 5) :=
  ⟨by decide,
    pick_always_returns_picker_position sqOracle _ (by decide) (by decide)⟩

/-- C1: the code contradicts its own comments ("If we hit something, use
that position" / "If no object was hit, use plane intersection method"):
on a miss it returns the raw picker position `(0,0,-90)`, whose squared
distance from the camera (10000) differs from the squared focal distance
(100), instead of the plane-intersected point; even the picker's
`(0,0,0)` miss sentinel — the value the guard was written to catch — is
returned as-is, because the tuple-vs-list guard is always true. -/
theorem pick_miss_divergence :
    get_world_position_from_mouse sqOracle pickEnvMiss = some (0, 0, -90) ∧
    distanceSq (0, 0, -90) pickEnvMiss.cameraPos ≠
      distanceSq pickEnvMiss.cameraFocus pickEnvMiss.cameraPos ∧
    get_world_position_from_mouse sqOracle
      { pickEnvMiss with pickPos := (0, 0, 0) } = some (0, 0, 0) := by
  refine ⟨?_, by norm_num [distanceSq, pickEnvMiss], ?_⟩ <;>
    simp [get_world_position_from_mouse, pickEnvMiss, pySeqNe, pySeqEq]

/-- In a live scale drag, the dragged actor's scale after
`handle_scale_drag` is computed from the drag-start data only. -/
theorem handle_scale_drag_result (st : Widget) (m : QPoint) (a : ActorId)
    (rest : List ActorId) (hsc : st.is_scaling = true)
    (hsel : st.om.selected_actors = a :: rest) :
    (st.handle_scale_drag m).om.scaleVec a =
      scale_drag_new_scale st.original_scale st.scale_axis
        (1 + (m.1 - st.scale_start_point.1) * (1/100)) := by
  unfold Widget.handle_scale_drag
  rw [if_neg (by simp [hsc, hsel])]
  simp only [hsel]
  cases houtl : st.om.outline_actors a <;> simp [houtl, updMap]

/-- The `handle_scale_drag` leaves the drag-start bookkeeping and the
selection untouched. -/
theorem handle_scale_drag_preserves (st : Widget) (m : QPoint) :
    (st.handle_scale_drag m).is_scaling = st.is_scaling ∧
    (st.handle_scale_drag m).om.selected_actors = st.om.selected_actors ∧
    (st.handle_scale_drag m).original_scale = st.original_scale ∧
    (st.handle_scale_drag m).scale_axis = st.scale_axis ∧
    (st.handle_scale_drag m).scale_start_point = st.scale_start_point := by
  unfold Widget.handle_scale_drag
  split
  · exact ⟨rfl, rfl, rfl, rfl, rfl⟩
  · split
    · exact ⟨rfl, rfl, rfl, rfl, rfl⟩
    · dsimp only
      split <;> exact ⟨rfl, rfl, rfl, rfl, rfl⟩

/-- C5: during a Scale drag, no component of the selected object's scale
is ever set below the floor `0.1`, for every drag distance including
arbitrarily large negative horizontal deltas. -/
theorem scale_floor_invariant (st : Widget) (m : QPoint) (a : ActorId)
    (rest : List ActorId) (hsc : st.is_scaling = true)
    (hsel : st.om.selected_actors = a :: rest) :
    1/10 ≤ ((st.handle_scale_drag m).om.scaleVec a).1 ∧
    1/10 ≤ ((st.handle_scale_drag m).om.scaleVec a).2.1 ∧
    1/10 ≤ ((st.handle_scale_drag m).om.scaleVec a).2.2 := by
  rw [handle_scale_drag_result st m a rest hsc hsel]
  unfold scale_drag_new_scale
  exact ⟨le_max_left _ _, le_max_left _ _, le_max_left _ _⟩

theorem scale_floor_invariant_witness :
    ((widgetW0.is_scaling = true ∧ widgetW0.om.selected_actors = [1]) ∧
      (1/10 ≤ ((widgetW0.handle_scale_drag (-4000, 0)).om.scaleVec 1).1 ∧
        1/10 ≤ ((widgetW0.handle_scale_drag (-4000, 0)).om.scaleVec 1).2.1 ∧
        1/10 ≤ ((widgetW0.handle_scale_drag (-4000, 0)).om.scaleVec 1).2.2)) :=
  ⟨⟨rfl, rfl⟩, scale_floor_invariant widgetW0 (-4000, 0) 1 [] rfl rfl⟩

/-- C6: every scale-drag event computes
`factor = 1 + horizontalPixelDelta * 0.01` from the pointer position at
drag start and sets the scaled component(s) to the drag-start scale times
the factor (floored at `0.1`; the `uniform` handle applies the factor to
all three components) — not incrementally from the previous event — so a
second drag event at the same pointer position leaves the scale exactly
as after the first. -/
theorem scale_drag_from_start_scale (st : Widget) (m : QPoint)
    (a : ActorId) (rest : List ActorId) (hsc : st.is_scaling = true)
    (hsel : st.om.selected_actors = a :: rest) :
    (st.scale_axis = some ScaleAxis.uniform →
      (st.handle_scale_drag m).om.scaleVec a =
        (max (1/10)
            (st.original_scale.1 * (1 + (m.1 - st.scale_start_point.1) * (1/100))),
          max (1/10)
            (st.original_scale.2.1 * (1 + (m.1 - st.scale_start_point.1) * (1/100))),
          max (1/10)
            (st.original_scale.2.2 * (1 + (m.1 - st.scale_start_point.1) * (1/100))))) ∧
    (st.scale_axis = some ScaleAxis.x →
      (st.handle_scale_drag m).om.scaleVec a =
        (max (1/10)
            (st.original_scale.1 * (1 + (m.1 - st.scale_start_point.1) * (1/100))),
          max (1/10) st.original_scale.2.1, max (1/10) st.original_scale.2.2)) ∧
    (st.scale_axis = some ScaleAxis.y →
      (st.handle_scale_drag m).om.scaleVec a =
        (max (1/10) st.original_scale.1,
          max (1/10)
            (st.original_scale.2.1 * (1 + (m.1 - st.scale_start_point.1) * (1/100))),
          max (1/10) st.original_scale.2.2)) ∧
    (st.scale_axis = some ScaleAxis.z →
      (st.handle_scale_drag m).om.scaleVec a =
        (max (1/10) st.original_scale.1, max (1/10) st.original_scale.2.1,
          max (1/10)
            (st.original_scale.2.2 * (1 + (m.1 - st.scale_start_point.1) * (1/100))))) ∧
    ((st.handle_scale_drag m).handle_scale_drag m).om.scaleVec a =
      (st.handle_scale_drag m).om.scaleVec a := by
  have h1 := handle_scale_drag_result st m a rest hsc hsel
  refine ⟨?_, ?_, ?_, ?_, ?_⟩
  · intro hax; rw [h1, hax]; simp [scale_drag_new_scale]
  · intro hax; rw [h1, hax]; simp [scale_drag_new_scale]
  · intro hax; rw [h1, hax]; simp [scale_drag_new_scale]
  · intro hax; rw [h1, hax]; simp [scale_drag_new_scale]
  · obtain ⟨hp1, hp2, hp3, hp4, hp5⟩ := handle_scale_drag_preserves st m
    have h2 := handle_scale_drag_result (st.handle_scale_drag m) m a rest
      (by rw [hp1, hsc]) (by rw [hp2, hsel])
    rw [h2, h1, hp3, hp4, hp5]

theorem scale_drag_from_start_scale_witness :
    ((widgetW0.is_scaling = true ∧ widgetW0.om.selected_actors = [1]) ∧
      ((widgetW0.handle_scale_drag (30, 7)).handle_scale_drag (30, 7)).om.scaleVec 1 =
        (widgetW0.handle_scale_drag (30, 7)).om.scaleVec 1) :=
  ⟨⟨rfl, rfl⟩,
    (scale_drag_from_start_scale widgetW0 (30, 7) 1 [] rfl rfl).2.2.2.2⟩

/-- In a live rotate drag, the post-step orientation of the selected
actor and its outline, computed from the dragged axis. -/
theorem handle_rotate_drag_result (st : Widget) (m : QPoint) (a : ActorId)
    (rest : List ActorId) (o : Outline)
    (hrot : st.is_rotating_object = true)
    (hsel : st.om.selected_actors = a :: rest)
    (hout : st.om.outline_actors a = some o) :
    (st.handle_rotate_drag m).om.orientation a =
      vadd (st.om.orientation a)
        (match st.rotate_axis with
          | some RotAxis.x => ((m.2 - st.rotate_start_point.2) * (1/2), 0, 0)
          | some RotAxis.y => (0, (m.1 - st.rotate_start_point.1) * (1/2), 0)
          | some RotAxis.z => (0, 0, (m.1 - st.rotate_start_point.1) * (1/2))
          | none => (0, 0, 0)) ∧
    (st.handle_rotate_drag m).om.position a = st.om.position a ∧
    (st.handle_rotate_drag m).om.outline_actors a =
      some { o with
               orientation :=
                 vadd (st.om.orientation a)
                   (match st.rotate_axis with
                     | some RotAxis.x =>
                         ((m.2 - st.rotate_start_point.2) * (1/2), 0, 0)
                     | some RotAxis.y =>
                         (0, (m.1 - st.rotate_start_point.1) * (1/2), 0)
                     | some RotAxis.z =>
                         (0, 0, (m.1 - st.rotate_start_point.1) * (1/2))
                     | none => (0, 0, 0)),
               position := st.om.position a } := by
  unfold Widget.handle_rotate_drag
  rw [if_neg (by simp [hrot, hsel])]
  simp only [hsel]
  refine ⟨?_, ?_, ?_⟩ <;> simp [hout, updMap]

/-- C9: after every rotate-drag step, the selected object's outline has
exactly the object's orientation and position, and the step adds
`pixelDelta * sensitivity` (0.5 degrees per pixel) to the Euler component
of the dragged ring — vertical pixel delta for X, horizontal for Y and
Z. -/
theorem rotate_drag_outline_sync (st : Widget) (m : QPoint) (a : ActorId)
    (rest : List ActorId) (o : Outline)
    (hrot : st.is_rotating_object = true)
    (hsel : st.om.selected_actors = a :: rest)
    (hout : st.om.outline_actors a = some o) :
    (∃ o2, (st.handle_rotate_drag m).om.outline_actors a = some o2 ∧
      o2.orientation = (st.handle_rotate_drag m).om.orientation a ∧
      o2.position = (st.handle_rotate_drag m).om.position a) ∧
    (st.rotate_axis = some RotAxis.x →
      (st.handle_rotate_drag m).om.orientation a =
        vadd (st.om.orientation a)
          ((m.2 - st.rotate_start_point.2) * (1/2), 0, 0)) ∧
    (st.rotate_axis = some RotAxis.y →
      (st.handle_rotate_drag m).om.orientation a =
        vadd (st.om.orientation a)
          (0, (m.1 - st.rotate_start_point.1) * (1/2), 0)) ∧
    (st.rotate_axis = some RotAxis.z →
      (st.handle_rotate_drag m).om.orientation a =
        vadd (st.om.orientation a)
          (0, 0, (m.1 - st.rotate_start_point.1) * (1/2))) := by
  obtain ⟨h1, h2, h3⟩ := handle_rotate_drag_result st m a rest o hrot hsel hout
  refine ⟨⟨_, h3, h1.symm, h2.symm⟩, ?_, ?_, ?_⟩ <;>
    · intro hax
      rw [h1, hax]

theorem rotate_drag_outline_sync_witness :
    ((widgetW0.is_rotating_object = true ∧
        widgetW0.om.selected_actors = [1] ∧
        widgetW0.om.outline_actors 1 = some outlineO0) ∧
      ∃ o2, (widgetW0.handle_rotate_drag (12, 34)).om.outline_actors 1 = some o2 ∧
        o2.orientation = (widgetW0.handle_rotate_drag (12, 34)).om.orientation 1 ∧
        o2.position = (widgetW0.handle_rotate_drag (12, 34)).om.position 1) :=
  ⟨⟨rfl, rfl, rfl⟩,
    (rotate_drag_outline_sync widgetW0 (12, 34) 1 [] outlineO0 rfl rfl rfl).1⟩

/-- One orbit step leaves the polar angle in `[0.01, math.pi - 0.01]`. -/
theorem orbit_step_theta_bounds (st : Widget) (d : QPoint) :
    1/100 ≤ (st.orbit_camera_step d).camera_theta ∧
    (st.orbit_camera_step d).camera_theta ≤ mathPi - 1/100 := by
  unfold Widget.orbit_camera_step
  refine ⟨le_max_left _ _, max_le ?_ (min_le_left _ _)⟩
  norm_num [mathPi]

/-- Orbit steps keep the polar angle in `[0.01, math.pi - 0.01]`. -/
theorem orbit_foldl_theta_bounds (ds : List QPoint) (st : Widget)
    (h1 : 1/100 ≤ st.camera_theta)
    (h2 : st.camera_theta ≤ mathPi - 1/100) :
    1/100 ≤ (ds.foldl Widget.orbit_camera_step st).camera_theta ∧
    (ds.foldl Widget.orbit_camera_step st).camera_theta ≤ mathPi - 1/100 := by
  induction ds generalizing st with
  | nil => exact ⟨h1, h2⟩
  | cons d ds ih =>
      simp only [List.foldl_cons]
      exact ih (st.orbit_camera_step d) (orbit_step_theta_bounds st d).1
        (orbit_step_theta_bounds st d).2

/-- C7: after every camera orbit step — and any further sequence of orbit
steps with arbitrary deltas — the polar angle is strictly inside
`(0, π)`: each step clamps it to `[0.01, math.pi - 0.01]`, and the double
`math.pi` is itself strictly below the real `π`. -/
theorem orbit_polar_angle_bounds (st : Widget) (d : QPoint)
    (ds : List QPoint) :
    (0 : ℝ) <
        ((ds.foldl Widget.orbit_camera_step (st.orbit_camera_step d)).camera_theta : ℝ) ∧
      ((ds.foldl Widget.orbit_camera_step (st.orbit_camera_step d)).camera_theta : ℝ) <
        Real.pi := by
  obtain ⟨h1, h2⟩ := orbit_foldl_theta_bounds ds (st.orbit_camera_step d)
    (orbit_step_theta_bounds st d).1 (orbit_step_theta_bounds st d).2
  constructor
  · have h0 : (0 : ℚ) <
        (ds.foldl Widget.orbit_camera_step (st.orbit_camera_step d)).camera_theta :=
      lt_of_lt_of_le (by norm_num) h1
    exact_mod_cast h0
  · have hq : ((ds.foldl Widget.orbit_camera_step (st.orbit_camera_step d)).camera_theta : ℝ) ≤
        ((mathPi - 1/100 : ℚ) : ℝ) := by exact_mod_cast h2
    refine lt_of_le_of_lt hq (lt_trans ?_ Real.pi_gt_d6)
    rw [mathPi]
    push_cast
    norm_num

theorem orbit_polar_angle_bounds_witness :
    (0 : ℝ) <
        (([((3 : ℚ), (4 : ℚ))].foldl Widget.orbit_camera_step
            (widgetW0.orbit_camera_step (1, 2))).camera_theta : ℝ) ∧
      (([((3 : ℚ), (4 : ℚ))].foldl Widget.orbit_camera_step
            (widgetW0.orbit_camera_step (1, 2))).camera_theta : ℝ) <
        Real.pi :=
  orbit_polar_angle_bounds widgetW0 (1, 2) [(3, 4)]

/-- Restoring from entries that do not mention `t` leaves `t`'s opacity
unchanged. -/
theorem restoreOpacities_not_mem :
    ∀ (l : List (ActorId × ℚ)) (op : ActorId → ℚ) (t : ActorId),
      t ∉ l.map Prod.fst → restoreOpacities l op t = op t := by
  intro l
  induction l with
  | nil => intro op t h; rfl
  | cons e l ih =>
      intro op t h
      simp only [List.map_cons, List.mem_cons, not_or] at h
      simp only [restoreOpacities, List.foldl_cons]
      have h2 := ih (fun a => if a = e.1 then e.2 else op a) t h.2
      simp only [restoreOpacities] at h2
      rw [h2]
      exact if_neg h.1

/-- Restoring from entries with pairwise-distinct keys gives `t` the
value recorded for it. -/
theorem restoreOpacities_mem :
    ∀ (l : List (ActorId × ℚ)) (op : ActorId → ℚ) (t : ActorId) (v : ℚ),
      (l.map Prod.fst).Nodup → (t, v) ∈ l → restoreOpacities l op t = v := by
  intro l
  induction l with
  | nil => intro op t v _ hm; cases hm
  | cons e l ih =>
      intro op t v hnd hm
      simp only [List.map_cons, List.nodup_cons] at hnd
      simp only [restoreOpacities, List.foldl_cons]
      rcases List.mem_cons.mp hm with he | hm2
      · have ht : t ∉ l.map Prod.fst := by
          rw [← he] at hnd
          exact hnd.1
        have h2 := restoreOpacities_not_mem l
          (fun a => if a = e.1 then e.2 else op a) t ht
        simp only [restoreOpacities] at h2
        rw [h2, ← he]
        simp
      · exact ih _ t v hnd.2 hm2

/-- The updated dictionary contains the just-written binding. -/
theorem dictInsert_mem (d : List (ActorId × ℚ)) (k : ActorId) (v : ℚ) :
    (k, v) ∈ dictInsert d k v := by
  unfold dictInsert
  split
  · rename_i h
    obtain ⟨p, hp, hpk⟩ := List.mem_map.mp h
    exact List.mem_map.mpr ⟨p, hp, by rw [if_pos hpk]⟩
  · simp

/-- Dictionary update preserves distinctness of keys. -/
theorem dictInsert_keys_nodup (d : List (ActorId × ℚ)) (k : ActorId)
    (v : ℚ) (hnd : (d.map Prod.fst).Nodup) :
    ((dictInsert d k v).map Prod.fst).Nodup := by
  unfold dictInsert
  split
  · have hkeys :
        (d.map (fun p => if p.1 = k then (k, v) else p)).map Prod.fst =
          d.map Prod.fst := by
      rw [List.map_map]
      apply List.map_congr_left
      intro p hp
      by_cases hpk : p.1 = k
      · simp [hpk]
      · simp [hpk]
    rw [hkeys]
    exact hnd
  · rename_i h
    rw [List.map_append]
    rw [List.nodup_append]
    refine ⟨hnd, by simp, ?_⟩
    intro a ha
    simp only [List.map_cons, List.map_nil, List.mem_singleton]
    intro hak
    rw [hak] at ha
    exact h ha

/-- The `show(t)` followed by `hide()` restores `t` to the opacity it had
immediately before `show`, and empties the restore table, for any dim
value. -/
theorem gizmo_show_hide_general (dim : ℚ) (g : Gizmo) (w : ActorId → ℚ)
    (t : ActorId) (hnd : (g.original_opacities.map Prod.fst).Nodup) :
    ((Gizmo.show dim g w (some t)).1.hide (Gizmo.show dim g w (some t)).2).2 t = w t ∧
    ((Gizmo.show dim g w (some t)).1.hide
        (Gizmo.show dim g w (some t)).2).1.original_opacities = [] := by
  unfold Gizmo.show Gizmo.hide
  dsimp only
  exact ⟨restoreOpacities_mem _ _ t (w t)
      (dictInsert_keys_nodup _ _ _ hnd) (dictInsert_mem _ _ _), rfl⟩

/-- C4: for every target and starting opacity, `show(target)` followed by
`hide()` restores the target's opacity to exactly the value recorded
immediately before `show` (not a hard-coded default), with the restore
table keyed per object and emptied on `hide` so cycles cannot leak or
misrestore — for all three gizmos (Move dims to 0.3, Rotate to 0.2,
Scale to 0.3). -/
theorem gizmo_show_hide_restores_opacity (g : Gizmo) (w : ActorId → ℚ)
    (t : ActorId) (hnd : (g.original_opacities.map Prod.fst).Nodup) :
    (((MoveGizmo.show g w (some t)).1.hide (MoveGizmo.show g w (some t)).2).2 t = w t ∧
      ((MoveGizmo.show g w (some t)).1.hide
          (MoveGizmo.show g w (some t)).2).1.original_opacities = []) ∧
    (((RotateGizmo.show g w (some t)).1.hide (RotateGizmo.show g w (some t)).2).2 t = w t ∧
      ((RotateGizmo.show g w (some t)).1.hide
          (RotateGizmo.show g w (some t)).2).1.original_opacities = []) ∧
    (((ScaleGizmo.show g w (some t)).1.hide (ScaleGizmo.show g w (some t)).2).2 t = w t ∧
      ((ScaleGizmo.show g w (some t)).1.hide
          (ScaleGizmo.show g w (some t)).2).1.original_opacities = []) :=
  ⟨gizmo_show_hide_general (3/10) g w t hnd,
    gizmo_show_hide_general (2/10) g w t hnd,
    gizmo_show_hide_general (3/10) g w t hnd⟩

theorem gizmo_show_hide_restores_opacity_witness :
    (gizmoG0.original_opacities.map Prod.fst).Nodup ∧
    ((((MoveGizmo.show gizmoG0 opacityW0 (some 3)).1.hide
          (MoveGizmo.show gizmoG0 opacityW0 (some 3)).2).2 3 = opacityW0 3 ∧
        ((MoveGizmo.show gizmoG0 opacityW0 (some 3)).1.hide
            (MoveGizmo.show gizmoG0 opacityW0 (some 3)).2).1.original_opacities = []) ∧
      (((RotateGizmo.show gizmoG0 opacityW0 (some 3)).1.hide
          (RotateGizmo.show gizmoG0 opacityW0 (some 3)).2).2 3 = opacityW0 3 ∧
        ((RotateGizmo.show gizmoG0 opacityW0 (some 3)).1.hide
            (RotateGizmo.show gizmoG0 opacityW0 (some 3)).2).1.original_opacities = []) ∧
      (((ScaleGizmo.show gizmoG0 opacityW0 (some 3)).1.hide
          (ScaleGizmo.show gizmoG0 opacityW0 (some 3)).2).2 3 = opacityW0 3 ∧
        ((ScaleGizmo.show gizmoG0 opacityW0 (some 3)).1.hide
            (ScaleGizmo.show gizmoG0 opacityW0 (some 3)).2).1.original_opacities = [])) :=
  ⟨by decide, gizmo_show_hide_restores_opacity gizmoG0 opacityW0 3 (by decide)⟩

/-! Projection lemmas: each registry helper touches only the state fields
its source lines write. -/

@[simp]
theorem moveGizmoHide_selected (st : OM) :
    st.moveGizmoHide.selected_actors = st.selected_actors := rfl

@[simp]
theorem moveGizmoHide_outline (st : OM) :
    st.moveGizmoHide.outline_actors = st.outline_actors := rfl

@[simp]
theorem rotateGizmoHide_selected (st : OM) :
    st.rotateGizmoHide.selected_actors = st.selected_actors := rfl

@[simp]
theorem rotateGizmoHide_outline (st : OM) :
    st.rotateGizmoHide.outline_actors = st.outline_actors := rfl

@[simp]
theorem scaleGizmoHide_selected (st : OM) :
    st.scaleGizmoHide.selected_actors = st.selected_actors := rfl

@[simp]
theorem scaleGizmoHide_outline (st : OM) :
    st.scaleGizmoHide.outline_actors = st.outline_actors := rfl

@[simp]
theorem moveGizmoHide_position (st : OM) :
    st.moveGizmoHide.position = st.position := rfl

@[simp]
theorem rotateGizmoHide_position (st : OM) :
    st.rotateGizmoHide.position = st.position := rfl

@[simp]
theorem scaleGizmoHide_position (st : OM) :
    st.scaleGizmoHide.position = st.position := rfl

@[simp]
theorem moveGizmoHide_orientation (st : OM) :
    st.moveGizmoHide.orientation = st.orientation := rfl

@[simp]
theorem rotateGizmoHide_orientation (st : OM) :
    st.rotateGizmoHide.orientation = st.orientation := rfl

@[simp]
theorem scaleGizmoHide_orientation (st : OM) :
    st.scaleGizmoHide.orientation = st.orientation := rfl

@[simp]
theorem show_active_gizmo_selected (st : OM) :
    st.show_active_gizmo.selected_actors = st.selected_actors := by
  unfold OM.show_active_gizmo
  split <;> rfl

@[simp]
theorem show_active_gizmo_outline (st : OM) :
    st.show_active_gizmo.outline_actors = st.outline_actors := by
  unfold OM.show_active_gizmo
  split <;> rfl

@[simp]
theorem setOutlineVisible_selected (st : OM) (a : ActorId) (b : Bool) :
    (st.setOutlineVisible a b).selected_actors = st.selected_actors := by
  unfold OM.setOutlineVisible
  split <;> rfl

@[simp]
theorem setOutlineVisible_position (st : OM) (a : ActorId) (b : Bool) :
    (st.setOutlineVisible a b).position = st.position := by
  unfold OM.setOutlineVisible
  split <;> rfl

@[simp]
theorem setOutlineVisible_orientation (st : OM) (a : ActorId) (b : Bool) :
    (st.setOutlineVisible a b).orientation = st.orientation := by
  unfold OM.setOutlineVisible
  split <;> rfl

theorem setOutlineVisible_outline (st : OM) (a : ActorId) (b : Bool)
    (x : ActorId) :
    (st.setOutlineVisible a b).outline_actors x =
      if x = a then
        (st.outline_actors a).map (fun o => { o with visible := b })
      else st.outline_actors x := by
  unfold OM.setOutlineVisible
  cases h : st.outline_actors a <;> by_cases hx : x = a <;>
    simp [h, hx, updMap]

@[simp]
theorem update_outline_position_selected (st : OM) (a : ActorId) :
    (st.update_outline_position a).selected_actors = st.selected_actors := by
  unfold OM.update_outline_position
  split <;> rfl

@[simp]
theorem update_outline_position_position (st : OM) (a : ActorId) :
    (st.update_outline_position a).position = st.position := by
  unfold OM.update_outline_position
  split <;> rfl

@[simp]
theorem update_outline_position_actors (st : OM) (a : ActorId) :
    (st.update_outline_position a).actors = st.actors := by
  unfold OM.update_outline_position
  split <;> rfl

@[simp]
theorem update_outline_position_orientation (st : OM) (a : ActorId) :
    (st.update_outline_position a).orientation = st.orientation := by
  unfold OM.update_outline_position
  split <;> rfl

@[simp]
theorem update_outline_position_is_camera (st : OM) (a : ActorId) :
    (st.update_outline_position a).is_camera = st.is_camera := by
  unfold OM.update_outline_position
  split <;> rfl

@[simp]
theorem update_outline_position_cam_position (st : OM) (a : ActorId) :
    (st.update_outline_position a).cam_position = st.cam_position := by
  unfold OM.update_outline_position
  split <;> rfl

@[simp]
theorem update_outline_position_cam_focal (st : OM) (a : ActorId) :
    (st.update_outline_position a).cam_focal = st.cam_focal := by
  unfold OM.update_outline_position
  split <;> rfl

@[simp]
theorem update_outline_position_light_objects (st : OM) (a : ActorId) :
    (st.update_outline_position a).light_objects = st.light_objects := by
  unfold OM.update_outline_position
  split <;> rfl

theorem update_outline_position_outline (st : OM) (a x : ActorId) :
    (st.update_outline_position a).outline_actors x =
      if x = a then
        (st.outline_actors a).map
          (fun o => { o with
                        position := st.position a,
                        orientation := st.orientation a })
      else st.outline_actors x := by
  unfold OM.update_outline_position
  cases h : st.outline_actors a <;> by_cases hx : x = a <;>
    simp [h, hx, updMap]

@[simp]
theorem sync_light_position (st : OM) (a : ActorId) :
    (st.sync_light_for_actor a).position = st.position := by
  unfold OM.sync_light_for_actor
  split <;> rfl

@[simp]
theorem sync_light_actors (st : OM) (a : ActorId) :
    (st.sync_light_for_actor a).actors = st.actors := by
  unfold OM.sync_light_for_actor
  split <;> rfl

@[simp]
theorem sync_light_selected (st : OM) (a : ActorId) :
    (st.sync_light_for_actor a).selected_actors = st.selected_actors := by
  unfold OM.sync_light_for_actor
  split <;> rfl

@[simp]
theorem sync_light_outline (st : OM) (a : ActorId) :
    (st.sync_light_for_actor a).outline_actors = st.outline_actors := by
  unfold OM.sync_light_for_actor
  split <;> rfl

/-- Setting an outline invisible twice is the same as doing it once. -/
theorem map_setVisibleFalse_idem (u : Option Outline) :
    ((u.map (fun o => { o with visible := false })).map
        (fun o => { o with visible := false })) =
      u.map (fun o => { o with visible := false }) := by
  cases u <;> rfl

/-- Composition form of `map_setVisibleFalse_idem`. -/
theorem comp_setVisibleFalse_idem :
    ((fun o : Outline => { o with visible := false }) ∘
        fun o : Outline => { o with visible := false }) =
      fun o : Outline => { o with visible := false } :=
  funext fun _ => rfl

/-- Effect on one outline of the `deselect_all` loop that turns off every
selected actor's outline. -/
theorem foldl_setOutlineVisible_outline (l : List ActorId) (st : OM)
    (x : ActorId) :
    (l.foldl (fun s a => s.setOutlineVisible a false) st).outline_actors x =
      if x ∈ l then
        (st.outline_actors x).map (fun o => { o with visible := false })
      else st.outline_actors x := by
  induction l generalizing st with
  | nil => simp
  | cons a l ih =>
      simp only [List.foldl_cons]
      rw [ih, setOutlineVisible_outline]
      by_cases hxa : x = a <;> by_cases hxl : x ∈ l <;>
        simp [hxa, hxl, map_setVisibleFalse_idem, comp_setVisibleFalse_idem]

/-- The `deselect_all` loop leaves the selection list alone (it is
cleared afterwards by assignment). -/
theorem foldl_setOutlineVisible_selected (l : List ActorId) (st : OM) :
    (l.foldl (fun s a => s.setOutlineVisible a false) st).selected_actors =
      st.selected_actors := by
  induction l generalizing st with
  | nil => rfl
  | cons a l ih => simp [List.foldl_cons, ih]

/-- The `deselect_all` loop does not move anything. -/
theorem foldl_setOutlineVisible_position (l : List ActorId) (st : OM) :
    (l.foldl (fun s a => s.setOutlineVisible a false) st).position =
      st.position := by
  induction l generalizing st with
  | nil => rfl
  | cons a l ih => simp [List.foldl_cons, ih]

/-- The `deselect_all` loop does not rotate anything. -/
theorem foldl_setOutlineVisible_orientation (l : List ActorId) (st : OM) :
    (l.foldl (fun s a => s.setOutlineVisible a false) st).orientation =
      st.orientation := by
  induction l generalizing st with
  | nil => rfl
  | cons a l ih => simp [List.foldl_cons, ih]

@[simp]
theorem deselect_all_selected (st : OM) :
    st.deselect_all.selected_actors = [] := rfl

theorem deselect_all_outline (st : OM) (x : ActorId) :
    st.deselect_all.outline_actors x =
      if x ∈ st.selected_actors then
        (st.outline_actors x).map (fun o => { o with visible := false })
      else st.outline_actors x := by
  unfold OM.deselect_all
  exact foldl_setOutlineVisible_outline _ _ _

@[simp]
theorem deselect_all_position (st : OM) :
    st.deselect_all.position = st.position := by
  unfold OM.deselect_all
  exact foldl_setOutlineVisible_position _ _

@[simp]
theorem deselect_all_orientation (st : OM) :
    st.deselect_all.orientation = st.orientation := by
  unfold OM.deselect_all
  exact foldl_setOutlineVisible_orientation _ _

/-- The `deselect_object` removes the first occurrence of the actor from the
selection (a no-op removal when it is absent). -/
theorem deselect_object_selected (st : OM) (a : ActorId) :
    (st.deselect_object a).selected_actors = st.selected_actors.erase a := by
  unfold OM.deselect_object
  by_cases hmem : a ∈ st.selected_actors
  · simp [hmem]
  · simp [hmem, List.erase_of_not_mem hmem]

/-- The `select_object` with `multi_select=False` makes the actor the sole
selection. -/
theorem select_object_false_selected (st : OM) (a : ActorId) :
    (st.select_object a false).selected_actors = [a] := by
  unfold OM.select_object
  simp

/-- The `select_object` with `multi_select=False` leaves the actor's outline
visible (with its transform refreshed), when the actor has one. -/
theorem select_object_false_outline_self (st : OM) (a : ActorId)
    (oa : Outline) (hoa : st.outline_actors a = some oa) :
    ∃ o, (st.select_object a false).outline_actors a = some o ∧
      o.visible = true := by
  unfold OM.select_object
  simp only [Bool.false_eq_true, false_and, if_false, if_neg]
  rw [show_active_gizmo_outline, update_outline_position_outline,
    setOutlineVisible_outline, deselect_all_outline]
  by_cases hmem : a ∈ st.selected_actors <;> simp [hmem, hoa]

/-- The `select_object` with `multi_select=False` changes other actors'
outlines only through the `deselect_all` visibility sweep. -/
theorem select_object_false_outline_other (st : OM) (a x : ActorId)
    (hx : x ≠ a) :
    (st.select_object a false).outline_actors x =
      if x ∈ st.selected_actors then
        (st.outline_actors x).map (fun o => { o with visible := false })
      else st.outline_actors x := by
  unfold OM.select_object
  simp only [Bool.false_eq_true, false_and, if_false, if_neg,
    show_active_gizmo_outline, update_outline_position_outline,
    setOutlineVisible_outline, deselect_all_outline]
  simp [hx]

/-- The `select_object` with `multi_select=True` on a selected actor removes
it from the selection (toggle off). -/
theorem select_object_true_selected_mem (st : OM) (a : ActorId)
    (hmem : a ∈ st.selected_actors) :
    (st.select_object a true).selected_actors =
      st.selected_actors.erase a := by
  unfold OM.select_object
  rw [if_pos ⟨rfl, hmem⟩, show_active_gizmo_selected,
    deselect_object_selected]

/-- The `select_object` with `multi_select=True` on an unselected actor
appends it to the selection (toggle on). -/
theorem select_object_true_selected_not_mem (st : OM) (a : ActorId)
    (hmem : a ∉ st.selected_actors) :
    (st.select_object a true).selected_actors =
      st.selected_actors ++ [a] := by
  unfold OM.select_object
  rw [if_neg (by simp [hmem]), if_pos rfl, if_pos hmem,
    show_active_gizmo_selected, update_outline_position_selected,
    setOutlineVisible_selected]

/-- C8: `select` with `multi=false` clears the existing selection first —
two sequential `select(A)`, `select(B)` leave the selection `[B]` with
A's outline hidden and B's visible — and `select` with `multi=true`
toggles membership of the given object. -/
theorem select_semantics (st : OM) (A B X : ActorId) (oA oB : Outline)
    (hAB : A ≠ B)
    (hoA : st.outline_actors A = some oA)
    (hoB : st.outline_actors B = some oB) :
    ((st.select_object A false).select_object B false).selected_actors = [B] ∧
    (∃ o, ((st.select_object A false).select_object B false).outline_actors A =
        some o ∧ o.visible = false) ∧
    (∃ o, ((st.select_object A false).select_object B false).outline_actors B =
        some o ∧ o.visible = true) ∧
    (X ∈ st.selected_actors →
      (st.select_object X true).selected_actors =
        st.selected_actors.erase X) ∧
    (X ∉ st.selected_actors →
      (st.select_object X true).selected_actors =
        st.selected_actors ++ [X]) := by
  refine ⟨select_object_false_selected _ _, ?_, ?_,
    fun h => select_object_true_selected_mem st X h,
    fun h => select_object_true_selected_not_mem st X h⟩
  · obtain ⟨o1, ho1, hv1⟩ := select_object_false_outline_self st A oA hoA
    have h2 := select_object_false_outline_other (st.select_object A false)
      B A hAB
    rw [select_object_false_selected] at h2
    rw [h2, if_pos (List.mem_singleton.mpr rfl), ho1]
    exact ⟨{ o1 with visible := false }, rfl, rfl⟩
  · have h1 := select_object_false_outline_other st A B
      (fun h => hAB h.symm)
    by_cases hmem : B ∈ st.selected_actors
    · rw [if_pos hmem, hoB] at h1
      exact select_object_false_outline_self (st.select_object A false) B
        { oB with visible := false } h1
    · rw [if_neg hmem, hoB] at h1
      exact select_object_false_outline_self (st.select_object A false) B
        oB h1

theorem select_semantics_witness :
    ((1 : ActorId) ≠ 2 ∧ omW0.outline_actors 1 = some outlineO0 ∧
      omW0.outline_actors 2 = some outlineO0) ∧
    (((omW0.select_object 1 false).select_object 2 false).selected_actors = [2] ∧
      (∃ o, ((omW0.select_object 1 false).select_object 2 false).outline_actors 1 =
          some o ∧ o.visible = false) ∧
      (∃ o, ((omW0.select_object 1 false).select_object 2 false).outline_actors 2 =
          some o ∧ o.visible = true) ∧
      ((1 : ActorId) ∈ omW0.selected_actors →
        (omW0.select_object 1 true).selected_actors =
          omW0.selected_actors.erase 1) ∧
      ((1 : ActorId) ∉ omW0.selected_actors →
        (omW0.select_object 1 true).selected_actors =
          omW0.selected_actors ++ [1])) :=
  ⟨⟨by decide, rfl, rfl⟩,
    select_semantics omW0 1 2 1 outlineO0 outlineO0 (by decide) rfl rfl⟩

/-- C3 counterexample: object `0` is not in the registry list of `omW0`,
yet `move_object` still translates it — the operation is not a no-op on
objects absent from the registry. -/
theorem move_object_unregistered_not_noop :
    (0 : ActorId) ∉ omW0.actors ∧
    (OM.move_object sqOracle omW0 0 1 0 0).position 0 ≠ omW0.position 0 := by
  constructor
  · decide
  · intro h
    have h0 : (OM.move_object sqOracle omW0 0 1 0 0).position 0 =
        (1, 0, 0) := by
      simp [OM.move_object, OM.update_outline_position,
        OM.sync_light_for_actor, omW0, updMap]
    rw [h0] at h
    have : ((1 : ℚ), (0 : ℚ), (0 : ℚ)) ≠ ((0 : ℚ) , (0 : ℚ), (0 : ℚ)) := by
      simp
    exact this (h.trans rfl)

/-- C3 (amended): operations on an object absent from the registry raise
no exception, and `deselect_object` on an object that is neither selected
nor outlined is a true no-op; but `move_object` is not a no-op — it adds
the delta to the object's position regardless of registry membership,
leaving the registry list and the selection unchanged. -/
theorem registry_stale_reference_behavior (st : OM) (sq : ℚ → ℚ)
    (actor : ActorId) (dx dy dz : ℚ) (hna : actor ∉ st.actors)
    (hns : actor ∉ st.selected_actors)
    (hno : st.outline_actors actor = none) :
    st.deselect_object actor = st ∧
    (OM.move_object sq st actor dx dy dz).position actor =
      vadd (st.position actor) (dx, dy, dz) ∧
    (OM.move_object sq st actor dx dy dz).actors = st.actors ∧
    (OM.move_object sq st actor dx dy dz).selected_actors =
      st.selected_actors := by
  refine ⟨?_, ?_, ?_, ?_⟩
  · unfold OM.deselect_object OM.setOutlineVisible
    simp [hns, hno]
  · unfold OM.move_object
    by_cases hc : st.is_camera actor <;>
      simp [hc, update_outline_position_position, updMap, vadd]
  · unfold OM.move_object
    by_cases hc : st.is_camera actor <;> simp [hc]
  · unfold OM.move_object
    by_cases hc : st.is_camera actor <;> simp [hc]

theorem registry_stale_reference_behavior_witness :
    ((0 : ActorId) ∉ omW0.actors ∧ (0 : ActorId) ∉ omW0.selected_actors ∧
      omW0.outline_actors 0 = none) ∧
    (omW0.deselect_object 0 = omW0 ∧
      (OM.move_object sqOracle omW0 0 1 2 3).position 0 =
        vadd (omW0.position 0) (1, 2, 3) ∧
      (OM.move_object sqOracle omW0 0 1 2 3).actors = omW0.actors ∧
      (OM.move_object sqOracle omW0 0 1 2 3).selected_actors =
        omW0.selected_actors) :=
  ⟨⟨by decide, by decide, rfl⟩,
    registry_stale_reference_behavior omW0 sqOracle 0 1 2 3 (by decide)
      (by decide) rfl⟩
